import Mathlib

/-!
Shallow embedding of the simulation core of the arena-combat game
(src/game.js, optimized variant; the legacy near-duplicate variant is
src/unnamed/part_000).  JavaScript numbers are modelled as exact
rationals; random draws (jitter, spawn positions, escape angles) are
passed in as explicit parameters; square roots produced by Math.hypot /
Math.sqrt, which are irrational in general, are likewise passed as a
parameter constrained in the theorems that need them.
-/

namespace Blade

/-! World constants, from the top of game.js. -/

def WORLD_W : ℚ := 4200
def WORLD_H : ℚ := 2600

def EDGE_CAP : ℕ := 32
def PLAYER_EDGE_CAP : ℕ := 26
def PARTS_PER_EDGE : ℕ := 3

def PARTS_PER_PLASMA : ℕ := 3
def PLASMA_MAX : ℕ := 10
def PLASMA_ATK_PER_LEVEL : ℚ := 2
def PLASMA_FIRST_HIT_MULT : ℚ := 3

def WAVE_MAX : ℕ := 8
def WAVE_PARTS_PER_LEVEL : ℕ := 2
def WAVE_COOLDOWN_MS : ℚ := 950
def WAVE_RANGE : ℚ := 520
def WAVE_WIDTH : ℚ := 44
def WAVE_SPEED : ℚ := 980
def WAVE_DAMAGE_MULT : ℚ := 2.0

def REGEN_BOOST_PER_PICKUP : ℚ := 0.15

def SCORE_PER_EDGE_PART : ℤ := 5
def SCORE_PER_REGEN_PART : ℤ := 6
def SCORE_PER_WAVE_PART : ℤ := 10
def SCORE_PER_ENEMY_KO : ℤ := 50
def SCORE_PER_BOSS_KO : ℤ := 250
def SCORE_DROP_FRACTION_PVP : ℚ := 0.35

def ATK_PER_EDGE : ℚ := 1.2
def DEF_PER_EDGE : ℚ := 1.1
def MAXHP_PER_EDGE : ℚ := 2.2

def HIT_RANGE : ℚ := 38
def HIT_COOLDOWN_MS : ℚ := 320

def BASE_SPEED : ℚ := 230

def PLAYER_RADIUS : ℚ := 18
def ENEMY_RADIUS : ℚ := 16
def PART_RADIUS : ℚ := 8

def BOSS_HP_MULT : ℚ := 3.7
def BOSS_ATK_BONUS : ℚ := 3
def BOSS_DEF_BONUS : ℚ := 2
def BOSS_RADIUS : ℚ := 34

def BOT_STUCK_DIST_EPS : ℚ := 2.0
def BOT_STUCK_FRAMES : ℕ := 10
def BOT_ESCAPE_MS : ℚ := 550

/-- clamp(v, a, b) = Math.max(a, Math.min(b, v)), from game.js helpers. -/
def clamp (v a b : ℚ) : ℚ := max a (min b v)

/-- The same clamp on natural numbers (progression counters are
non-negative integers throughout the source). -/
def clampNat (v a b : ℕ) : ℕ := max a (min b v)

/-- The same clamp on integers. -/
def clampInt (v a b : ℤ) : ℤ := max a (min b v)

/-- dist2(ax, ay, bx, by): squared euclidean distance, from game.js. -/
def dist2 (ax ay bx b2 : ℚ) : ℚ := (ax - bx) * (ax - bx) + (ay - b2) * (ay - b2)

/-- Result record of computeStats. -/
structure Stats where
  atk : ℤ
  defense : ℤ
  maxHp : ℤ
  deriving DecidableEq

/-- computeStats(edges) from game.js: derives attack / defense / max-health
from the edge count.  Math.round on a non-negative value is modelled by
Mathlib round (= floor (x + 1/2), exactly the JS behaviour). -/
def computeStats (edges : ℕ) : Stats :=
  let extra : ℕ := edges - 4
  { atk := round ((10 : ℚ) + extra * ATK_PER_EDGE)
    defense := round ((10 : ℚ) + extra * DEF_PER_EDGE)
    maxHp := round ((100 : ℚ) + extra * MAXHP_PER_EDGE) }

/-- One combat entity.  Fighters (player / bot), wild enemies and the boss
share this field layout in the source (duck-typed records); fields that a
given record kind never sets are 0 / false there (JS undefined is falsy).
Enemy-only fields targetX / targetY / retargetAt are included for the
same reason. -/
structure Combatant where
  x : ℚ
  y : ℚ
  vx : ℚ
  vy : ℚ
  r : ℚ
  edges : ℕ
  parts : ℕ
  plasma : ℕ
  plasmaParts : ℕ
  wave : ℕ
  waveParts : ℕ
  regenParts : ℕ
  regenRate : ℚ
  atk : ℚ
  defense : ℚ
  maxHp : ℚ
  hp : ℚ
  rot : ℚ
  hitReadyAt : ℚ
  dashReadyAt : ℚ
  dashingUntil : ℚ
  plasmaPrimed : Bool
  lastLandedHitAt : ℚ
  aimX : ℚ
  aimY : ℚ
  waveReadyAt : ℚ
  score : ℤ
  stuckFrames : ℕ
  escapeUntil : ℚ
  escapeX : ℚ
  escapeY : ℚ
  invulnUntil : ℚ
  plasmaFlashUntil : ℚ
  targetX : ℚ
  targetY : ℚ
  retargetAt : ℚ
  deriving DecidableEq

/-- recomputeFighterStats(p) from game.js. -/
def recomputeFighterStats (p : Combatant) : Combatant :=
  let base := computeStats p.edges
  { p with
    atk := (base.atk : ℚ) + p.plasma * PLASMA_ATK_PER_LEVEL
    defense := (base.defense : ℚ)
    maxHp := (base.maxHp : ℚ)
    hp := clamp p.hp 0 (base.maxHp : ℚ) }

/-- addPlasma(p, amount) from game.js (particle spawning is rendering-only
and dropped). -/
def addPlasma (p : Combatant) (amount : ℕ) : Combatant :=
  let prev := p.plasma
  let p := { p with plasma := clampNat (p.plasma + amount) 0 PLASMA_MAX }
  if p.plasma ≠ prev then
    let p := recomputeFighterStats p
    { p with hp := clamp (p.hp + (round (p.maxHp * 0.06) : ℚ)) 0 p.maxHp }
  else p

/-- addWave(p, amount) from game.js. -/
def addWave (p : Combatant) (amount : ℕ) : Combatant :=
  { p with wave := clampNat (p.wave + amount) 0 WAVE_MAX }

/-- regenTick(p, dt) from game.js. -/
def regenTick (p : Combatant) (dt : ℚ) : Combatant :=
  let edgeBonus := (max 0 ((p.edges : ℚ) - 4)) * 0.02
  let rate := p.regenRate + p.regenParts * REGEN_BOOST_PER_PICKUP
  { p with hp := clamp (p.hp + rate * (1 + edgeBonus) * dt) 0 p.maxHp }

/-- makeFighter(x, y, tint) from game.js; the tint tag is only used by the
renderer and for identity flags which this embedding passes explicitly. -/
def makeFighter (x y : ℚ) : Combatant :=
  let base := computeStats 4
  { x := x, y := y, vx := 0, vy := 0
    r := PLAYER_RADIUS
    edges := 4, parts := 0
    plasma := 0, plasmaParts := 0
    wave := 0, waveParts := 0
    regenParts := 0, regenRate := 0.8
    atk := (base.atk : ℚ), defense := (base.defense : ℚ)
    maxHp := (base.maxHp : ℚ), hp := (base.maxHp : ℚ)
    rot := 0, hitReadyAt := 0
    dashReadyAt := 0, dashingUntil := 0
    plasmaPrimed := true, lastLandedHitAt := -1000000000
    aimX := 1, aimY := 0
    waveReadyAt := 0
    score := 0
    stuckFrames := 0, escapeUntil := 0, escapeX := 0, escapeY := 0
    invulnUntil := 0, plasmaFlashUntil := 0
    targetX := 0, targetY := 0, retargetAt := 0 }

/-- The three wild-enemy variants. -/
inductive EnemyType where
  | chaser
  | skitter
  | brute
  deriving DecidableEq

/-- The variant draw at the top of makeEnemy:
roll < 0.55 chaser, roll < 0.80 skitter, else brute. -/
def enemyTypeFromRoll (roll : ℚ) : EnemyType :=
  if roll < 0.55 then .chaser else if roll < 0.80 then .skitter else .brute

/-- The random draws consumed by makeEnemy (position, rotation, wander
target). -/
structure EnemyRnd where
  x : ℚ
  y : ℚ
  rot : ℚ
  targetX : ℚ
  targetY : ℚ
  deriving DecidableEq

/-- makeEnemy(i, type) from game.js, after the variant has been resolved.
Fields a JS enemy record never sets (plasma, score, invulnUntil, ...) are
0 / false, matching undefined-is-falsy in every consumer. -/
def makeEnemy (etype : EnemyType) (rnd : EnemyRnd) : Combatant :=
  let edges : ℕ := match etype with | .brute => 6 | _ => 4
  let base := computeStats edges
  let r : ℚ := match etype with
    | .brute => ENEMY_RADIUS + 6
    | .skitter => ENEMY_RADIUS - 2
    | .chaser => ENEMY_RADIUS
  { x := rnd.x, y := rnd.y, vx := 0, vy := 0
    r := r
    edges := edges, parts := 0
    plasma := 0, plasmaParts := 0
    wave := 0, waveParts := 0
    regenParts := 0, regenRate := 0
    atk := match etype with
      | .brute => (base.atk : ℚ) + 2
      | .skitter => max 6 ((base.atk : ℚ) - 1)
      | .chaser => (base.atk : ℚ)
    defense := match etype with
      | .skitter => max 6 ((base.defense : ℚ) - 1)
      | _ => (base.defense : ℚ)
    maxHp := match etype with
      | .brute => (round ((base.maxHp : ℚ) * 1.25) : ℚ)
      | .skitter => (round ((base.maxHp : ℚ) * 0.85) : ℚ)
      | .chaser => (base.maxHp : ℚ)
    hp := (base.maxHp : ℚ)
    rot := rnd.rot, hitReadyAt := 0
    dashReadyAt := 0, dashingUntil := 0
    plasmaPrimed := false, lastLandedHitAt := 0
    aimX := 0, aimY := 0
    waveReadyAt := 0
    score := 0
    stuckFrames := 0, escapeUntil := 0, escapeX := 0, escapeY := 0
    invulnUntil := 0, plasmaFlashUntil := 0
    targetX := rnd.targetX, targetY := rnd.targetY, retargetAt := 0 }

/-- The part kinds on the field. -/
inductive PartKind where
  | edge
  | regen
  | wave
  | score
  deriving DecidableEq

/-- A field pickup.  The value field is meaningful for score orbs only;
the source reads it as part.value || 0, so a missing value is 0. -/
structure Part where
  kind : PartKind
  value : ℕ
  deriving DecidableEq

/-- pickupPart(f, part) from game.js (float-text / particle / shake calls
are rendering-only and dropped). -/
def pickupPart (f : Combatant) (part : Part) : Combatant :=
  match part.kind with
  | .score => { f with score := f.score + part.value }
  | .edge =>
    if f.edges < PLAYER_EDGE_CAP then
      let f := { f with parts := f.parts + 1, score := f.score + SCORE_PER_EDGE_PART }
      if f.parts % PARTS_PER_EDGE = 0 then
        let before := f.edges
        let f := { f with edges := clampNat (f.edges + 1) 3 PLAYER_EDGE_CAP }
        if f.edges ≠ before then
          let f := recomputeFighterStats f
          { f with hp := clamp (f.hp + (round ((0.12 : ℚ) * f.maxHp) : ℚ)) 0 f.maxHp }
        else f
      else f
    else
      let f := { f with plasmaParts := f.plasmaParts + 1, score := f.score + SCORE_PER_EDGE_PART }
      if f.plasmaParts % PARTS_PER_PLASMA = 0 then addPlasma f 1 else f
  | .regen => { f with regenParts := f.regenParts + 1, score := f.score + SCORE_PER_REGEN_PART }
  | .wave =>
    let f := { f with waveParts := f.waveParts + 1, score := f.score + SCORE_PER_WAVE_PART }
    if f.waveParts % WAVE_PARTS_PER_LEVEL = 0 then addWave f 1 else f

/-- The chunk loop of spawnScoreOrbs, counting down the number of chunks
still to emit: with k chunks left, the emitted value is
floor(remaining / k), except that the last chunk takes everything left. -/
def orbLoop : ℕ → ℕ → List ℕ
  | _, 0 => []
  | remaining, 1 => [remaining]
  | remaining, (k + 2) =>
      remaining / (k + 2) :: orbLoop (remaining - remaining / (k + 2)) (k + 1)

/-- The values of the score orbs pushed by spawnScoreOrbs(x, y, scoreAmount)
in game.js (positions are random and irrelevant to the economy):
remaining = max(0, floor(scoreAmount)); chunks = clamp(ceil(remaining/35), 2, 7). -/
def spawnScoreOrbValues (scoreAmount : ℚ) : List ℕ :=
  let remaining : ℕ := (max 0 ⌊scoreAmount⌋).toNat
  let chunks : ℤ := clampInt ⌈(remaining : ℚ) / 35⌉ 2 7
  orbLoop remaining chunks.toNat

/-- The PvP drop amount: Math.floor(defender.score * SCORE_DROP_FRACTION_PVP). -/
def droppedPvP (score : ℤ) : ℤ := ⌊(score : ℚ) * SCORE_DROP_FRACTION_PVP⌋

/-- Environment for the respawn functions: the boss position when a boss
is alive, the value bossDist standing for Math.hypot(dx, dy) || 1 in the
spawn-shove check (a square root, hence a parameter), and the random
draws consumed by respawnEnemy. -/
structure RespawnEnv where
  boss : Option (ℚ × ℚ)
  bossDist : ℚ
  enemyRoll : ℚ
  enemyX : ℚ
  enemyY : ℚ
  deriving DecidableEq

/-- respawnEnemy(enemy) from game.js. -/
def respawnEnemy (env : RespawnEnv) (enemy : Combatant) : Combatant :=
  let enemy := { enemy with x := env.enemyX, y := env.enemyY, vx := 0, vy := 0 }
  let enemy :=
    if env.enemyRoll < 0.65 then
      let prev := enemy.edges
      let e2 := { enemy with edges := clampNat (enemy.edges + 1) 3 EDGE_CAP }
      if e2.edges ≠ prev then
        let s := computeStats e2.edges
        { e2 with atk := (s.atk : ℚ), defense := (s.defense : ℚ), maxHp := (s.maxHp : ℚ) }
      else e2
    else enemy
  { enemy with hp := enemy.maxHp }

/-- respawnFighter(p, isPlayer) from game.js: home position, stats
recomputed, health restored, plasma re-primed, stuck state cleared, 1400 ms
spawn protection, then a radial shove away from a too-close boss. -/
def respawnFighter (env : RespawnEnv) (p : Combatant) (isPlayer : Bool) (now : ℚ) : Combatant :=
  let p := { p with
    x := WORLD_W * 0.5 + (if isPlayer then 0 else 220)
    y := WORLD_H * 0.55 + (if isPlayer then 0 else 160)
    vx := 0, vy := 0 }
  let p := recomputeFighterStats p
  let p := { p with
    hp := p.maxHp
    plasmaPrimed := true
    lastLandedHitAt := -1000000000
    stuckFrames := 0
    escapeUntil := 0
    invulnUntil := now + 1400 }
  match env.boss with
  | none => p
  | some (bx, bY) =>
      let dx := p.x - bx
      let dy := p.y - bY
      let d := env.bossDist
      if d < 420 then
        { p with
          x := clamp (bx + dx / d * 520) (p.r + 10) (WORLD_W - p.r - 10)
          y := clamp (bY + dy / d * 520) (p.r + 10) (WORLD_H - p.r - 10) }
      else p

/-- The damage formula of applyDamage: base = atk − def·0.58;
dmg = max(2, round((base + jitter) · mult)). -/
def damageAmount (atk defense j mult : ℚ) : ℤ :=
  max 2 (round ((atk - defense * 0.58 + j) * mult))

/-- Identity flags applyDamage reads off the global state in the source
(=== comparisons with state.player / state.botPlayer / state.boss). -/
structure DamageCtx where
  attackerIsPlayer : Bool
  defenderIsPlayer : Bool
  defenderIsBoss : Bool
  attackerIsPC : Bool
  defenderIsPC : Bool
  attackerNeDefender : Bool
  deriving DecidableEq

/-- Everything applyDamage produces: the two updated entities, the values
of any spawned score orbs, the damage dealt (none when the call returned
before dealing damage), and the global side effects of the death dispatch. -/
structure DamageResult where
  attacker : Combatant
  defender : Combatant
  orbs : List ℕ
  dmg : Option ℤ
  bossCleared : Bool
  kosInc : Bool
  deriving DecidableEq

/-- The body of applyDamage after its two early returns (cooldown gate
and spawn protection): plasma-primed multiplier, damage roll, health
update, and the on-death dispatch.  Factored out of applyDamage below
only so that each half of the source function has its own equation. -/
def applyDamageCore (ctx : DamageCtx) (env : RespawnEnv) (attacker defender : Combatant)
    (now j extraMult : ℚ) : DamageResult :=
  let primed := attacker.plasmaPrimed
  let mult := if primed then extraMult * PLASMA_FIRST_HIT_MULT else extraMult
  let attacker :=
    if primed then { attacker with plasmaPrimed := false, plasmaFlashUntil := now + 160 }
    else attacker
  let dmg : ℤ := damageAmount attacker.atk defender.defense j mult
  let defender := { defender with hp := max 0 (defender.hp - (dmg : ℚ)) }
  let attacker :=
    if ctx.attackerIsPlayer then { attacker with lastLandedHitAt := now } else attacker
  if defender.hp ≤ 0 then
    if ctx.defenderIsBoss then
      { attacker := { attacker with score := attacker.score + SCORE_PER_BOSS_KO },
        defender := defender, orbs := [], dmg := some dmg,
        bossCleared := true, kosInc := false }
    else if ctx.defenderIsPC && ctx.attackerIsPC && ctx.attackerNeDefender then
      let dropped := droppedPvP defender.score
      let defender := { defender with score := max 0 (defender.score - dropped) }
      let orbs := if 0 < dropped then spawnScoreOrbValues (dropped : ℚ) else []
      let attacker := { attacker with score := attacker.score + SCORE_PER_ENEMY_KO }
      { attacker := attacker,
        defender := respawnFighter env defender ctx.defenderIsPlayer now,
        orbs := orbs, dmg := some dmg, bossCleared := false, kosInc := false }
    else if ctx.defenderIsPC = false then
      { attacker := { attacker with score := attacker.score + SCORE_PER_ENEMY_KO },
        defender := respawnEnemy env defender, orbs := [], dmg := some dmg,
        bossCleared := false, kosInc := true }
    else
      { attacker := attacker,
        defender := respawnFighter env defender ctx.defenderIsPlayer now,
        orbs := [], dmg := some dmg, bossCleared := false, kosInc := false }
  else
    { attacker := attacker, defender := defender, orbs := [], dmg := some dmg,
      bossCleared := false, kosInc := false }

/-- applyDamage(attacker, defender, now, extraMult, fromWave) from game.js
(optimized variant).  j is the damage jitter rand(−2, 2).  Rendering-only
calls (float text, particles, shake, flash, banner message) are dropped;
the defender invulnerability test keeps the JS truthiness of
defender.invulnUntil && now < defender.invulnUntil. -/
def applyDamage (ctx : DamageCtx) (env : RespawnEnv) (attacker defender : Combatant)
    (now j extraMult : ℚ) (fromWave : Bool) : DamageResult :=
  if now < attacker.hitReadyAt ∧ fromWave = false then
    { attacker := attacker, defender := defender, orbs := [], dmg := none,
      bossCleared := false, kosInc := false }
  else
  let attacker := { attacker with hitReadyAt := now + HIT_COOLDOWN_MS }
  if defender.invulnUntil ≠ 0 ∧ now < defender.invulnUntil then
    { attacker := attacker, defender := defender, orbs := [], dmg := none,
      bossCleared := false, kosInc := false }
  else
    applyDamageCore ctx env attacker defender now j extraMult

/-- A wave projectile, as pushed by tryWave in game.js. -/
structure Projectile where
  x : ℚ
  y : ℚ
  dx : ℚ
  dy : ℚ
  w : ℚ
  len : ℚ
  speed : ℚ
  life : ℚ
  age : ℚ
  damageMult : ℚ
  waveLevel : ℕ
  deriving DecidableEq

/-- rectHitProjectile(proj, target) from game.js: capsule test, point to
directed segment distance against (target.r + proj.w/2), all by squared
distances (no square roots in the source either). -/
def rectHitProjectile (proj : Projectile) (target : Combatant) : Bool :=
  let px := proj.x
  let py := proj.y
  let tx := target.x
  let ty := target.y
  let ex := px + proj.dx * proj.len
  let ey := py + proj.dy * proj.len
  let vx := ex - px
  let vy := ey - py
  let wx := tx - px
  let wy := ty - py
  let c1 := vx * wx + vy * wy
  let r2 := (target.r + proj.w / 2) ^ 2
  if c1 ≤ 0 then decide (dist2 tx ty px py ≤ r2)
  else
    let c2 := vx * vx + vy * vy
    if c2 ≤ c1 then decide (dist2 tx ty ex ey ≤ r2)
    else
      let b := c1 / c2
      let bx := px + b * vx
      let bY := py + b * vy
      decide (dist2 tx ty bx bY ≤ r2)

/-- One entry of the per-projectile candidate-target list built by
updateProjectiles (enemies, then boss, then botPlayer, then player): the
entity, the t === pr.owner identity, and the dispatch data applyDamage
would read from the global state for this entity. -/
structure TargetEntry where
  c : Combatant
  isOwner : Bool
  ctx : DamageCtx
  env : RespawnEnv
  deriving DecidableEq

/-- A candidate the inner loop of updateProjectiles skips over:
dead (t.hp <= 0), the owner (t === pr.owner), or failing the capsule test. -/
def projSkips (pr : Projectile) (t : TargetEntry) : Prop :=
  t.c.hp ≤ 0 ∨ t.isOwner = true ∨ rectHitProjectile pr t.c = false

instance (pr : Projectile) (t : TargetEntry) : Decidable (projSkips pr t) := by
  unfold projSkips; infer_instance

/-- The defender after the wave hit of updateProjectiles:
applyDamage(pr.owner, t, now, mult, true) with
mult = pr.damageMult * (1 + pr.waveLevel * 0.05), where the owner first had
hitReadyAt = min(hitReadyAt, now) applied. -/
def waveHitDefender (pr : Projectile) (owner : Combatant) (t : TargetEntry) (now j : ℚ) :
    Combatant :=
  let mult := pr.damageMult * (1 + (pr.waveLevel : ℚ) * 0.05)
  let owner := { owner with hitReadyAt := min owner.hitReadyAt now }
  (applyDamage t.ctx t.env owner t.c now j mult true).defender

/-- The inner for-of loop of updateProjectiles over the candidate list:
skip dead candidates and the owner, apply damage to the first candidate
the capsule test hits, then break.  Returns the updated list and, when a
hit happened, the updated owner and the spawned score-orb values. -/
def hitLoop (pr : Projectile) (owner : Combatant) (now j : ℚ) :
    List TargetEntry → List TargetEntry × Option (Combatant × List ℕ)
  | [] => ([], none)
  | t :: rest =>
    if t.c.hp ≤ 0 ∨ t.isOwner = true then
      let out := hitLoop pr owner now j rest
      (t :: out.1, out.2)
    else if rectHitProjectile pr t.c then
      let mult := pr.damageMult * (1 + (pr.waveLevel : ℚ) * 0.05)
      let owner2 := { owner with hitReadyAt := min owner.hitReadyAt now }
      let res := applyDamage t.ctx t.env owner2 t.c now j mult true
      ({ t with c := res.defender } :: rest, some (res.attacker, res.orbs))
    else
      let out := hitLoop pr owner now j rest
      (t :: out.1, out.2)

/-- The per-projectile body of updateProjectiles(dt, now) in game.js:
age and advance the projectile, run the hit loop, and remove the
projectile when its age reached its lifetime or it hit.  Returns
(advanced projectile, updated targets, hit data, removed). -/
def advanceProj (pr : Projectile) (dt : ℚ) : Projectile :=
  { pr with
    age := pr.age + dt
    x := pr.x + pr.dx * pr.speed * dt
    y := pr.y + pr.dy * pr.speed * dt }

def projectileTick (pr : Projectile) (owner : Combatant) (ts : List TargetEntry)
    (dt now j : ℚ) : Projectile × List TargetEntry × Option (Combatant × List ℕ) × Bool :=
  let pr := advanceProj pr dt
  let out := hitLoop pr owner now j ts
  (pr, out.1, out.2, decide (pr.life ≤ pr.age) || out.2.isSome)

/-- A static obstacle rectangle. -/
structure Obstacle where
  x : ℚ
  y : ℚ
  w : ℚ
  h : ℚ
  deriving DecidableEq

/-- resolveCircleRect(ent, rect) from game.js.  The parameter d stands for
Math.sqrt(Math.max(1e-6, d2)) — the one irrational step of the function —
and is constrained to that value in the theorems about this definition. -/
def resolveCircleRect (ent : Combatant) (rect : Obstacle) (d : ℚ) : Combatant :=
  let closestX := clamp ent.x rect.x (rect.x + rect.w)
  let closestY := clamp ent.y rect.y (rect.y + rect.h)
  let dx := ent.x - closestX
  let dy := ent.y - closestY
  let d2 := dx * dx + dy * dy
  let r := ent.r + 2
  if r * r ≤ d2 then ent
  else
    let push := r - d
    { ent with x := ent.x + dx / d * push, y := ent.y + dy / d * push }

/-- The point (px, py) lies in the closed rectangle. -/
def insideRect (px py : ℚ) (rect : Obstacle) : Prop :=
  rect.x ≤ px ∧ px ≤ rect.x + rect.w ∧ rect.y ≤ py ∧ py ≤ rect.y + rect.h

instance (px py : ℚ) (rect : Obstacle) : Decidable (insideRect px py rect) := by
  unfold insideRect; infer_instance

/-- Squared distance from a point to the edge (boundary) of a rectangle —
the measuring stick of the collision claim.  For an inside point this is
the squared distance to the nearest side; for an outside point, the
squared distance to the clamped (nearest) rectangle point. -/
def distSqToRectEdge (px py : ℚ) (rect : Obstacle) : ℚ :=
  if insideRect px py rect then
    (min (min (px - rect.x) (rect.x + rect.w - px))
         (min (py - rect.y) (rect.y + rect.h - py))) ^ 2
  else
    (px - clamp px rect.x (rect.x + rect.w)) ^ 2 +
    (py - clamp py rect.y (rect.y + rect.h)) ^ 2

/-- The random draws of the bot stuck-recovery trigger: (ux, uy) stands
for (cos a, sin a) of the random escape angle — a unit vector — and jit
for rand(120, 280). -/
structure BotStuckRnd where
  ux : ℚ
  uy : ℚ
  jit : ℚ
  deriving DecidableEq

/-- The stuck-detection block of updateBotPlayer in game.js, entered right
after moveEntity with the pre-move position (preX, preY).  The source
compares Math.hypot magnitudes against 0.2 and BOT_STUCK_DIST_EPS; both
operands are non-negative, so the equivalent squared comparisons are used
here.  ℕ subtraction makes stuckFrames - 1 exactly Math.max(0, n - 1). -/
def updateBotStuck (b : Combatant) (preX preY now : ℚ) (rnd : BotStuckRnd) : Combatant :=
  let movedSq := dist2 b.x b.y preX preY
  let tryingSq := b.vx * b.vx + b.vy * b.vy
  let b :=
    if 0.04 < tryingSq ∧ movedSq < BOT_STUCK_DIST_EPS ^ 2 then
      { b with stuckFrames := b.stuckFrames + 1 }
    else
      { b with stuckFrames := b.stuckFrames - 1 }
  if BOT_STUCK_FRAMES ≤ b.stuckFrames then
    { b with
      stuckFrames := 0
      escapeX := rnd.ux
      escapeY := rnd.uy
      escapeUntil := now + BOT_ESCAPE_MS + rnd.jit }
  else b

/-- The mutating operations the simulation applies to a fighter, with
their random draws and call parameters made explicit.  The damaged
operation is the defender-side health update of applyDamage
(hp := max(0, hp − dmg) with the source damage formula). -/
inductive FighterOp where
  | pickup (part : Part)
  | damaged (atkStat defStat j mult : ℚ)
  | regen (dt : ℚ)
  | plasmaGain (amount : ℕ)
  | waveGain (amount : ℕ)
  | recompute
  | respawn (env : RespawnEnv) (isPlayer : Bool) (now : ℚ)

/-- Apply one mutating operation to a fighter. -/
def applyFighterOp : FighterOp → Combatant → Combatant
  | .pickup part, f => pickupPart f part
  | .damaged a dSt j m, f =>
      { f with hp := max 0 (f.hp - (damageAmount a dSt j m : ℚ)) }
  | .regen dt, f => regenTick f dt
  | .plasmaGain n, f => addPlasma f n
  | .waveGain n, f => addWave f n
  | .recompute, f => recomputeFighterStats f
  | .respawn env isPlayer now, f => respawnFighter env f isPlayer now

/-- The fighter bounds invariant of the spec: health within
[0, max_health], edges within the player cap, plasma and wave within
their caps (the ℕ fields carry their lower bounds by type). -/
def FighterInv (f : Combatant) : Prop :=
  0 ≤ f.hp ∧ f.hp ≤ f.maxHp ∧ f.edges ≤ PLAYER_EDGE_CAP ∧
    f.plasma ≤ PLASMA_MAX ∧ f.wave ≤ WAVE_MAX

instance (f : Combatant) : Decidable (FighterInv f) := by
  unfold FighterInv; infer_instance

/-! Concrete states used by the closed witness / counterexample theorems. -/

/-- A respawn environment with no boss alive. -/
def envNone : RespawnEnv := { boss := none, bossDist := 1, enemyRoll := 0, enemyX := 0, enemyY := 0 }

/-- Identity flags for a hit of the human player on the bot fighter. -/
def ctxPvP : DamageCtx :=
  { attackerIsPlayer := true, defenderIsPlayer := false, defenderIsBoss := false,
    attackerIsPC := true, defenderIsPC := true, attackerNeDefender := true }

/-- A fresh fighter used as attacker in the concrete scenarios. -/
def fighterA : Combatant := makeFighter 100 100

/-- A fresh fighter still under spawn protection until t = 5000. -/
def fighterInvuln : Combatant := { makeFighter 120 100 with invulnUntil := 5000 }

/-- A fighter at 50 health (survives one plasma-primed hit). -/
def fighterTarget : Combatant := { makeFighter 120 100 with hp := 50 }

/-- A fighter at 1 health holding 100 score (dies to any hit). -/
def fighterDying : Combatant := { makeFighter 120 100 with hp := 1, score := 100 }

/-- Fixed random draws for makeEnemy in the concrete scenarios. -/
def rndZero : EnemyRnd := { x := 0, y := 0, rot := 0, targetX := 0, targetY := 0 }

/-- A fixed escape draw: direction (1, 0), duration jitter 200. -/
def stuckRnd : BotStuckRnd := { ux := 1, uy := 0, jit := 200 }

/-- A bot that has been stuck for 9 frames and is still trying to move. -/
def botStuck9 : Combatant := { makeFighter 300 300 with vx := 1, vy := 0, stuckFrames := 9 }

/-- The obstacle rectangle of the collision scenarios. -/
def obstacleTest : Obstacle := { x := 0, y := 0, w := 100, h := 100 }

/-- An entity whose center lies inside obstacleTest, 1 unit from its left edge. -/
def entInside : Combatant := makeFighter 1 50

/-- An entity whose center lies 15 units right of obstacleTest, overlapping it. -/
def entOutside : Combatant := makeFighter 115 50

/-- A wave projectile fired along +x from the origin. -/
def projTest : Projectile :=
  { x := 0, y := 0, dx := 1, dy := 0, w := 44, len := 52, speed := 980,
    life := 1, age := 0, damageMult := 2, waveLevel := 1 }

/-- A candidate target far away from projTest (capsule test misses). -/
def targetFar : TargetEntry :=
  { c := makeFighter 2000 2000, isOwner := false, ctx := ctxPvP, env := envNone }

/-- A candidate target on the path of projTest (capsule test hits). -/
def targetNear : TargetEntry :=
  { c := fighterTarget, isOwner := false, ctx := ctxPvP, env := envNone }

/-- A candidate target 10 units off the midline of projTest at x = 30
(capsule test hits: 10 ≤ target radius 18 + half-width 22). -/
def targetHit : TargetEntry :=
  { c := { makeFighter 30 10 with hp := 50 }, isOwner := false, ctx := ctxPvP,
    env := envNone }

/-! Helper lemmas shared by the claim theorems. -/

theorem roundMono {x y : ℚ} (h : x ≤ y) : round x ≤ round y := by
  rw [round_eq, round_eq]
  exact Int.floor_le_floor (by linarith)

theorem computeStats_maxHp_ge (e : ℕ) : (100 : ℤ) ≤ (computeStats e).maxHp := by
  unfold computeStats
  have h0 : (0 : ℚ) ≤ ((e - 4 : ℕ) : ℚ) * MAXHP_PER_EDGE := by
    have : (0 : ℚ) ≤ ((e - 4 : ℕ) : ℚ) := Nat.cast_nonneg _
    have h22 : (0 : ℚ) ≤ MAXHP_PER_EDGE := by norm_num [MAXHP_PER_EDGE]
    positivity
  calc (100 : ℤ) = round ((100 : ℕ) : ℚ) := by rw [round_natCast]; norm_num
    _ ≤ round ((100 : ℚ) + ((e - 4 : ℕ) : ℚ) * MAXHP_PER_EDGE) := by
        apply roundMono; push_cast; linarith
    _ = (computeStats e).maxHp := rfl

theorem computeStats_four : computeStats 4 = ⟨10, 10, 100⟩ := by
  unfold computeStats
  norm_num [ATK_PER_EDGE, DEF_PER_EDGE, MAXHP_PER_EDGE, round_eq, Int.floor_eq_iff]

theorem makeFighter_proj (x y : ℚ) :
    (makeFighter x y).atk = 10 ∧ (makeFighter x y).defense = 10 ∧
    (makeFighter x y).maxHp = 100 ∧ (makeFighter x y).hp = 100 ∧
    (makeFighter x y).hitReadyAt = 0 ∧ (makeFighter x y).invulnUntil = 0 ∧
    (makeFighter x y).plasmaPrimed = true ∧ (makeFighter x y).plasma = 0 ∧
    (makeFighter x y).edges = 4 ∧ (makeFighter x y).wave = 0 := by
  simp [makeFighter, computeStats_four]

theorem applyDamage_gateBlocked (ctx : DamageCtx) (env : RespawnEnv)
    (attacker defender : Combatant) (now j extraMult : ℚ) (fromWave : Bool)
    (hgate : now < attacker.hitReadyAt ∧ fromWave = false) :
    applyDamage ctx env attacker defender now j extraMult fromWave =
      { attacker := attacker, defender := defender, orbs := [], dmg := none,
        bossCleared := false, kosInc := false } := by
  unfold applyDamage
  rw [if_pos hgate]

theorem applyDamage_invuln (ctx : DamageCtx) (env : RespawnEnv)
    (attacker defender : Combatant) (now j extraMult : ℚ) (fromWave : Bool)
    (hgate : ¬(now < attacker.hitReadyAt ∧ fromWave = false))
    (hinv : defender.invulnUntil ≠ 0 ∧ now < defender.invulnUntil) :
    applyDamage ctx env attacker defender now j extraMult fromWave =
      { attacker := { attacker with hitReadyAt := now + HIT_COOLDOWN_MS },
        defender := defender, orbs := [], dmg := none,
        bossCleared := false, kosInc := false } := by
  unfold applyDamage
  rw [if_neg hgate]
  simp only [if_pos hinv]

theorem applyDamage_eq_core (ctx : DamageCtx) (env : RespawnEnv)
    (attacker defender : Combatant) (now j extraMult : ℚ) (fromWave : Bool)
    (hgate : ¬(now < attacker.hitReadyAt ∧ fromWave = false))
    (hinv : ¬(defender.invulnUntil ≠ 0 ∧ now < defender.invulnUntil)) :
    applyDamage ctx env attacker defender now j extraMult fromWave =
      applyDamageCore ctx env { attacker with hitReadyAt := now + HIT_COOLDOWN_MS }
        defender now j extraMult := by
  unfold applyDamage
  rw [if_neg hgate]
  simp only [if_neg hinv]

theorem applyDamageCore_dmg (ctx : DamageCtx) (env : RespawnEnv)
    (attacker defender : Combatant) (now j extraMult : ℚ) :
    (applyDamageCore ctx env attacker defender now j extraMult).dmg =
      some (damageAmount attacker.atk defender.defense j
        (if attacker.plasmaPrimed = true then extraMult * PLASMA_FIRST_HIT_MULT
         else extraMult)) := by
  unfold applyDamageCore
  cases h : attacker.plasmaPrimed <;>
    simp only [h, if_true, if_false, Bool.false_eq_true, Bool.true_eq_false,
      apply_ite DamageResult.dmg, ite_self]

theorem applyDamageCore_attacker_plasmaPrimed (ctx : DamageCtx) (env : RespawnEnv)
    (attacker defender : Combatant) (now j extraMult : ℚ) :
    (applyDamageCore ctx env attacker defender now j extraMult).attacker.plasmaPrimed
      = false := by
  unfold applyDamageCore
  cases h : attacker.plasmaPrimed <;>
    simp only [h, if_true, if_false, Bool.false_eq_true, Bool.true_eq_false,
      apply_ite DamageResult.attacker, apply_ite Combatant.plasmaPrimed, ite_self]

theorem le_clamp (v a b : ℚ) : a ≤ clamp v a b := le_max_left _ _

theorem clamp_le {v a b : ℚ} (hab : a ≤ b) : clamp v a b ≤ b :=
  max_le hab (min_le_left _ _)

theorem clampNat_le {v a b : ℕ} (hab : a ≤ b) : clampNat v a b ≤ b :=
  max_le hab (min_le_left _ _)

theorem respawnFighter_proj (env : RespawnEnv) (p : Combatant) (isPlayer : Bool) (now : ℚ) :
    (respawnFighter env p isPlayer now).hp = ((computeStats p.edges).maxHp : ℚ) ∧
    (respawnFighter env p isPlayer now).maxHp = ((computeStats p.edges).maxHp : ℚ) ∧
    (respawnFighter env p isPlayer now).vx = 0 ∧
    (respawnFighter env p isPlayer now).vy = 0 ∧
    (respawnFighter env p isPlayer now).plasmaPrimed = true ∧
    (respawnFighter env p isPlayer now).stuckFrames = 0 ∧
    (respawnFighter env p isPlayer now).escapeUntil = 0 ∧
    (respawnFighter env p isPlayer now).invulnUntil = now + 1400 ∧
    (respawnFighter env p isPlayer now).score = p.score ∧
    (respawnFighter env p isPlayer now).edges = p.edges ∧
    (respawnFighter env p isPlayer now).plasma = p.plasma ∧
    (respawnFighter env p isPlayer now).wave = p.wave := by
  unfold respawnFighter recomputeFighterStats
  rcases env.boss with _ | ⟨bx, byy⟩
  · simp
  · dsimp only
    split <;> simp

/-- Claim C6: for every fighter in any state, respawnFighter restores
health to the max-health recomputed from the fighter's current
progression, zeroes the velocity, re-arms the plasma-primed flag, clears
the stuck-recovery counter (and the escape deadline), and grants an
invulnerability window ending strictly in the future. -/
theorem respawnFighter_spec (env : RespawnEnv) (p : Combatant) (isPlayer : Bool) (now : ℚ) :
    (respawnFighter env p isPlayer now).hp = ((computeStats p.edges).maxHp : ℚ) ∧
    (respawnFighter env p isPlayer now).hp = (respawnFighter env p isPlayer now).maxHp ∧
    (respawnFighter env p isPlayer now).vx = 0 ∧
    (respawnFighter env p isPlayer now).vy = 0 ∧
    (respawnFighter env p isPlayer now).plasmaPrimed = true ∧
    (respawnFighter env p isPlayer now).stuckFrames = 0 ∧
    (respawnFighter env p isPlayer now).escapeUntil = 0 ∧
    now < (respawnFighter env p isPlayer now).invulnUntil := by
  obtain ⟨h1, h2, h3, h4, h5, h6, h7, h8, -⟩ := respawnFighter_proj env p isPlayer now
  refine ⟨h1, by rw [h1, h2], h3, h4, h5, h6, h7, by rw [h8]; linarith⟩

/-- Claim C8: computeStats is monotonically non-decreasing in attack,
defense and max-health over edge counts 4 ≤ e ≤ e2 ≤ cap. -/
theorem computeStats_monotone (e e2 : ℕ) (h4 : 4 ≤ e) (h12 : e ≤ e2)
    (hcap : e2 ≤ PLAYER_EDGE_CAP) :
    (computeStats e).atk ≤ (computeStats e2).atk ∧
    (computeStats e).defense ≤ (computeStats e2).defense ∧
    (computeStats e).maxHp ≤ (computeStats e2).maxHp := by
  have hx : ((e - 4 : ℕ) : ℚ) ≤ ((e2 - 4 : ℕ) : ℚ) := by
    exact_mod_cast Nat.sub_le_sub_right h12 4
  unfold computeStats
  refine ⟨roundMono ?_, roundMono ?_, roundMono ?_⟩
  · have h := mul_le_mul_of_nonneg_right hx
      (show (0 : ℚ) ≤ ATK_PER_EDGE by norm_num [ATK_PER_EDGE])
    linarith
  · have h := mul_le_mul_of_nonneg_right hx
      (show (0 : ℚ) ≤ DEF_PER_EDGE by norm_num [DEF_PER_EDGE])
    linarith
  · have h := mul_le_mul_of_nonneg_right hx
      (show (0 : ℚ) ≤ MAXHP_PER_EDGE by norm_num [MAXHP_PER_EDGE])
    linarith

/-- Witness for C8 at the concrete pair e = 4, e2 = 26 = player cap. -/
theorem computeStats_monotone_witness :
    (computeStats 4).atk ≤ (computeStats 26).atk ∧
    (computeStats 4).defense ≤ (computeStats 26).defense ∧
    (computeStats 4).maxHp ≤ (computeStats 26).maxHp :=
  computeStats_monotone 4 26 (by norm_num) (by norm_num) (by norm_num [PLAYER_EDGE_CAP])

/-- Claim C9 (code bug): makeEnemy sets hp to the UNSCALED base max
health while maxHp is variant-scaled.  A chaser starts at full health,
but a brute starts damaged (hp 104 < maxHp 130) and a skitter starts
above its maximum (hp 100 > maxHp 85), so hp = maxHp fails at creation. -/
theorem makeEnemy_hp_mismatch :
    (makeEnemy .chaser rndZero).hp = (makeEnemy .chaser rndZero).maxHp ∧
    (makeEnemy .brute rndZero).hp = 104 ∧
    (makeEnemy .brute rndZero).maxHp = 130 ∧
    (makeEnemy .skitter rndZero).hp = 100 ∧
    (makeEnemy .skitter rndZero).maxHp = 85 ∧
    ¬ (makeEnemy .skitter rndZero).hp ≤ (makeEnemy .skitter rndZero).maxHp := by
  norm_num [makeEnemy, computeStats, rndZero, MAXHP_PER_EDGE, ATK_PER_EDGE,
    DEF_PER_EDGE, round_eq, Int.floor_eq_iff]

/-- Claim C2 (counterexample): with the defender under spawn protection
and the attacker off cooldown, applyDamage leaves the defender's health
untouched but still consumes the attacker's melee cooldown — hitReadyAt
moves from 0 to now + 320, refuting the claimed unchanged cooldown. -/
theorem invuln_consumes_cooldown_cex :
    (applyDamage ctxPvP envNone fighterA fighterInvuln 1000 0 1 false).defender.hp =
      fighterInvuln.hp ∧
    (applyDamage ctxPvP envNone fighterA fighterInvuln 1000 0 1 false).attacker.hitReadyAt ≠
      fighterA.hitReadyAt := by
  norm_num [applyDamage, fighterA, fighterInvuln, makeFighter, HIT_COOLDOWN_MS]

/-- Claim C2 (amended): an attack on a defender under active spawn
invulnerability deals no damage — the defender record is returned
unchanged — but the attacker's melee cooldown IS consumed: unless the
initial cooldown gate already blocked the call (in which case nothing at
all changes), the attacker comes back with hitReadyAt = now + 320. -/
theorem invuln_blocks_damage_but_consumes_cooldown
    (ctx : DamageCtx) (env : RespawnEnv) (attacker defender : Combatant)
    (now j extraMult : ℚ) (fromWave : Bool)
    (hinv : defender.invulnUntil ≠ 0 ∧ now < defender.invulnUntil) :
    (applyDamage ctx env attacker defender now j extraMult fromWave).defender = defender ∧
    (applyDamage ctx env attacker defender now j extraMult fromWave).dmg = none ∧
    ((now < attacker.hitReadyAt ∧ fromWave = false) →
      (applyDamage ctx env attacker defender now j extraMult fromWave).attacker = attacker) ∧
    (¬(now < attacker.hitReadyAt ∧ fromWave = false) →
      (applyDamage ctx env attacker defender now j extraMult fromWave).attacker =
        { attacker with hitReadyAt := now + HIT_COOLDOWN_MS }) := by
  unfold applyDamage
  by_cases hgate : now < attacker.hitReadyAt ∧ fromWave = false
  · simp [if_pos hgate, hgate]
  · simp only [if_neg hgate, if_pos hinv]
    simp [hgate]

/-- Witness for the amended C2 at a concrete input. -/
theorem invuln_blocks_damage_witness :
    (applyDamage ctxPvP envNone fighterA fighterInvuln 1000 0 1 false).defender =
      fighterInvuln ∧
    (applyDamage ctxPvP envNone fighterA fighterInvuln 1000 0 1 false).attacker =
      { fighterA with hitReadyAt := 1320 } := by
  have h := invuln_blocks_damage_but_consumes_cooldown ctxPvP envNone fighterA fighterInvuln
    1000 0 1 false (by norm_num [fighterInvuln, makeFighter])
  refine ⟨h.1, ?_⟩
  have h4 := h.2.2.2 (by norm_num [fighterA, makeFighter])
  rw [h4]
  norm_num [HIT_COOLDOWN_MS]

/-- Claim C10: in the optimized variant the first-strike ×3 fires purely
off the plasmaPrimed flag — the attacker's plasma level is never
consulted, so a fighter with plasma = 0 still gets it — and the flag is
cleared on use.  applyDamage never re-arms the flag (this variant has no
quiet-period re-arm); respawnFighter re-arms it. -/
theorem plasma_primed_first_strike
    (ctx : DamageCtx) (env : RespawnEnv) (attacker defender : Combatant)
    (now j extraMult : ℚ) (fromWave : Bool) (p2 : Combatant) (isP : Bool) (now2 : ℚ) :
    (attacker.plasmaPrimed = true →
      ¬(now < attacker.hitReadyAt ∧ fromWave = false) →
      ¬(defender.invulnUntil ≠ 0 ∧ now < defender.invulnUntil) →
      (applyDamage ctx env attacker defender now j extraMult fromWave).dmg =
        some (damageAmount attacker.atk defender.defense j
          (extraMult * PLASMA_FIRST_HIT_MULT)) ∧
      (applyDamage ctx env attacker defender now j extraMult fromWave).attacker.plasmaPrimed
        = false) ∧
    ((applyDamage ctx env attacker defender now j extraMult fromWave).attacker.plasmaPrimed
        = true → attacker.plasmaPrimed = true) ∧
    (respawnFighter env p2 isP now2).plasmaPrimed = true := by
  refine ⟨?_, ?_, (respawnFighter_proj env p2 isP now2).2.2.2.2.1⟩
  · intro hpr hgate hinv
    rw [applyDamage_eq_core ctx env attacker defender now j extraMult fromWave hgate hinv]
    constructor
    · rw [applyDamageCore_dmg]
      simp [hpr]
    · exact applyDamageCore_attacker_plasmaPrimed ..
  · intro hres
    by_cases hgate : now < attacker.hitReadyAt ∧ fromWave = false
    · rw [applyDamage_gateBlocked ctx env attacker defender now j extraMult fromWave hgate]
        at hres
      exact hres
    · by_cases hinv : defender.invulnUntil ≠ 0 ∧ now < defender.invulnUntil
      · rw [applyDamage_invuln ctx env attacker defender now j extraMult fromWave hgate hinv]
          at hres
        exact hres
      · rw [applyDamage_eq_core ctx env attacker defender now j extraMult fromWave hgate hinv,
          applyDamageCore_attacker_plasmaPrimed] at hres
        exact absurd hres (by simp)

/-- Witness for C10: a fresh fighter (plasma = 0, primed) attacking an
unprotected fighter off cooldown: the damage is dealt with multiplier 3
(damage 13 instead of 4) and the flag is cleared. -/
theorem plasma_primed_first_strike_witness :
    fighterA.plasma = 0 ∧
    (applyDamage ctxPvP envNone fighterA fighterTarget 1000 0 1 false).dmg = some 13 ∧
    (applyDamage ctxPvP envNone fighterA fighterTarget 1000 0 1 false).attacker.plasmaPrimed
      = false := by
  have h := (plasma_primed_first_strike ctxPvP envNone fighterA fighterTarget 1000 0 1 false
      fighterA true 0).1
    (by norm_num [fighterA, makeFighter])
    (by norm_num [fighterA, makeFighter])
    (by norm_num [fighterTarget, makeFighter])
  refine ⟨by simp [fighterA, (makeFighter_proj 100 100).2.2.2.2.2.2.2.1], ?_, h.2⟩
  rw [h.1]
  have ha : fighterA.atk = 10 := by simp [fighterA, (makeFighter_proj 100 100).1]
  have hd : fighterTarget.defense = 10 := by
    simp [fighterTarget, (makeFighter_proj 120 100).2.1]
  rw [ha, hd]
  norm_num [damageAmount, PLASMA_FIRST_HIT_MULT, round_eq, Int.floor_eq_iff]

theorem orbLoop_sum : ∀ (k r : ℕ), (orbLoop r (k + 1)).sum = r
  | 0, r => by simp [orbLoop]
  | k + 1, r => by
    have ih := orbLoop_sum k (r - r / (k + 2))
    have h := Nat.div_le_self r (k + 2)
    show (orbLoop r (k + 2)).sum = r
    rw [orbLoop, List.sum_cons, ih]
    omega

theorem spawnScoreOrbValues_sum (q : ℚ) :
    ((spawnScoreOrbValues q).sum : ℤ) = max 0 ⌊q⌋ := by
  unfold spawnScoreOrbValues
  have h2 : 2 ≤ (clampInt ⌈(((max 0 ⌊q⌋).toNat : ℕ) : ℚ) / 35⌉ 2 7).toNat := by
    have h := le_max_left (2 : ℤ) (min 7 ⌈(((max 0 ⌊q⌋).toNat : ℕ) : ℚ) / 35⌉)
    unfold clampInt
    omega
  obtain ⟨k, hk⟩ : ∃ k, (clampInt ⌈(((max 0 ⌊q⌋).toNat : ℕ) : ℚ) / 35⌉ 2 7).toNat = k + 1 :=
    ⟨(clampInt ⌈(((max 0 ⌊q⌋).toNat : ℕ) : ℚ) / 35⌉ 2 7).toNat - 1, by omega⟩
  dsimp only
  rw [hk, orbLoop_sum]
  exact Int.toNat_of_nonneg (le_max_left 0 _)

theorem droppedPvP_nonneg {s : ℤ} (hs : 0 ≤ s) : 0 ≤ droppedPvP s := by
  unfold droppedPvP
  apply Int.floor_nonneg.mpr
  have h0 : (0 : ℚ) ≤ (s : ℚ) := by exact_mod_cast hs
  have h35 : (0 : ℚ) ≤ SCORE_DROP_FRACTION_PVP := by norm_num [SCORE_DROP_FRACTION_PVP]
  exact mul_nonneg h0 h35

theorem droppedPvP_le {s : ℤ} (hs : 0 ≤ s) : droppedPvP s ≤ s := by
  unfold droppedPvP
  have h0 : (0 : ℚ) ≤ (s : ℚ) := by exact_mod_cast hs
  have h35 : SCORE_DROP_FRACTION_PVP = 35 / 100 := by norm_num [SCORE_DROP_FRACTION_PVP]
  have h : (s : ℚ) * SCORE_DROP_FRACTION_PVP ≤ (s : ℚ) := by rw [h35]; nlinarith
  calc ⌊(s : ℚ) * SCORE_DROP_FRACTION_PVP⌋ ≤ ⌊((s : ℤ) : ℚ)⌋ := Int.floor_le_floor h
    _ = s := Int.floor_intCast s

theorem applyDamageCore_pvp (ctx : DamageCtx) (env : RespawnEnv)
    (attacker defender : Combatant) (now j extraMult : ℚ)
    (hboss : ctx.defenderIsBoss = false)
    (hpc : ctx.defenderIsPC = true) (hapc : ctx.attackerIsPC = true)
    (hne : ctx.attackerNeDefender = true)
    (hdie : defender.hp - ((damageAmount attacker.atk defender.defense j
        (if attacker.plasmaPrimed = true then extraMult * PLASMA_FIRST_HIT_MULT
         else extraMult) : ℤ) : ℚ) ≤ 0) :
    (applyDamageCore ctx env attacker defender now j extraMult).defender.score =
      max 0 (defender.score - droppedPvP defender.score) ∧
    (applyDamageCore ctx env attacker defender now j extraMult).orbs =
      (if 0 < droppedPvP defender.score
       then spawnScoreOrbValues ((droppedPvP defender.score : ℤ) : ℚ) else []) := by
  have hdeath : max 0 (defender.hp - ((damageAmount attacker.atk defender.defense j
      (if attacker.plasmaPrimed = true then extraMult * PLASMA_FIRST_HIT_MULT
       else extraMult) : ℤ) : ℚ)) ≤ 0 := max_le le_rfl hdie
  unfold applyDamageCore
  simp only [apply_ite Combatant.atk, ite_self]
  rw [hboss, hpc, hapc, hne]
  simp only [Bool.and_self, if_true, Bool.false_eq_true, if_false]
  rw [if_pos hdeath]
  refine ⟨?_, rfl⟩
  exact (respawnFighter_proj env _ ctx.defenderIsPlayer now).2.2.2.2.2.2.2.2.1

/-- Claim C1: on a PvP elimination the dropped amount is
floor(score · 0.35), the loser keeps score − dropped, and the spawned
score orbs carry exactly the dropped amount in total. -/
theorem pvp_drop_conserves_score
    (ctx : DamageCtx) (env : RespawnEnv) (attacker defender : Combatant)
    (now j extraMult : ℚ) (fromWave : Bool)
    (hgate : ¬(now < attacker.hitReadyAt ∧ fromWave = false))
    (hinv : ¬(defender.invulnUntil ≠ 0 ∧ now < defender.invulnUntil))
    (hboss : ctx.defenderIsBoss = false)
    (hpc : ctx.defenderIsPC = true) (hapc : ctx.attackerIsPC = true)
    (hne : ctx.attackerNeDefender = true)
    (hdie : defender.hp - ((damageAmount attacker.atk defender.defense j
        (if attacker.plasmaPrimed = true then extraMult * PLASMA_FIRST_HIT_MULT
         else extraMult) : ℤ) : ℚ) ≤ 0)
    (hscore : 0 ≤ defender.score) :
    droppedPvP defender.score = ⌊(defender.score : ℚ) * SCORE_DROP_FRACTION_PVP⌋ ∧
    (applyDamage ctx env attacker defender now j extraMult fromWave).defender.score =
      defender.score - droppedPvP defender.score ∧
    ((applyDamage ctx env attacker defender now j extraMult fromWave).orbs.sum : ℤ) =
      droppedPvP defender.score := by
  rw [applyDamage_eq_core ctx env attacker defender now j extraMult fromWave hgate hinv]
  have hcore := applyDamageCore_pvp ctx env
    { attacker with hitReadyAt := now + HIT_COOLDOWN_MS } defender now j extraMult
    hboss hpc hapc hne (by simpa using hdie)
  have hle := droppedPvP_le hscore
  have hnn := droppedPvP_nonneg hscore
  refine ⟨rfl, ?_, ?_⟩
  · rw [hcore.1]
    omega
  · rw [hcore.2]
    by_cases h0 : 0 < droppedPvP defender.score
    · rw [if_pos h0, spawnScoreOrbValues_sum]
      rw [Int.floor_intCast]
      omega
    · rw [if_neg h0]
      simp only [List.sum_nil, Nat.cast_zero]
      omega

/-- Witness for C1: the bot at 100 score dying to the player drops 35,
keeps 65, and the spawned orbs sum to 35. -/
theorem pvp_drop_conserves_score_witness :
    fighterDying.score = 100 ∧
    (applyDamage ctxPvP envNone fighterA fighterDying 1000 0 1 false).defender.score = 65 ∧
    ((applyDamage ctxPvP envNone fighterA fighterDying 1000 0 1 false).orbs.sum : ℤ)
      = 35 := by
  have hs : fighterDying.score = 100 := by simp [fighterDying]
  have hd : droppedPvP (100 : ℤ) = 35 := by
    norm_num [droppedPvP, SCORE_DROP_FRACTION_PVP, Int.floor_eq_iff]
  have h := pvp_drop_conserves_score ctxPvP envNone fighterA fighterDying 1000 0 1 false
    (by simp [fighterA, (makeFighter_proj 100 100).2.2.2.2.1])
    (by simp [fighterDying, (makeFighter_proj 120 100).2.2.2.2.2.1])
    (by norm_num [ctxPvP]) (by norm_num [ctxPvP]) (by norm_num [ctxPvP])
    (by norm_num [ctxPvP])
    (by
      have ha : fighterA.atk = 10 := by simp [fighterA, (makeFighter_proj 100 100).1]
      have hb : fighterDying.defense = 10 := by
        simp [fighterDying, (makeFighter_proj 120 100).2.1]
      have hc : fighterA.plasmaPrimed = true := by
        simp [fighterA, (makeFighter_proj 100 100).2.2.2.2.2.2.1]
      have hh : fighterDying.hp = 1 := by simp [fighterDying]
      rw [ha, hb, hc, hh]
      norm_num [damageAmount, PLASMA_FIRST_HIT_MULT, round_eq, Int.floor_eq_iff])
    (by rw [hs]; norm_num)
  refine ⟨hs, ?_, ?_⟩
  · rw [h.2.1, hs, hd]
    norm_num
  · rw [h.2.2, hs, hd]

theorem hp_clamp_inv {g : Combatant} (h : FighterInv g) (v : ℚ) :
    FighterInv { g with hp := clamp v 0 g.maxHp } := by
  obtain ⟨h1, h2, h3, h4, h5⟩ := h
  exact ⟨le_clamp v 0 g.maxHp, clamp_le (le_trans h1 h2), h3, h4, h5⟩

theorem recomputeFighterStats_inv {f : Combatant} (h : FighterInv f) :
    FighterInv (recomputeFighterStats f) := by
  obtain ⟨h1, h2, h3, h4, h5⟩ := h
  have hm : (0 : ℚ) ≤ ((computeStats f.edges).maxHp : ℚ) := by
    have hle := computeStats_maxHp_ge f.edges
    have : (0 : ℤ) ≤ (computeStats f.edges).maxHp := le_trans (by norm_num) hle
    exact_mod_cast this
  exact ⟨le_clamp f.hp 0 _, clamp_le hm, h3, h4, h5⟩

theorem addPlasma_inv {f : Combatant} (n : ℕ) (h : FighterInv f) :
    FighterInv (addPlasma f n) := by
  obtain ⟨h1, h2, h3, h4, h5⟩ := h
  have hf1 : FighterInv { f with plasma := clampNat (f.plasma + n) 0 PLASMA_MAX } :=
    ⟨h1, h2, h3, clampNat_le (Nat.zero_le _), h5⟩
  unfold addPlasma
  dsimp only
  split
  · exact hp_clamp_inv (recomputeFighterStats_inv hf1) _
  · exact hf1

theorem addWave_inv {f : Combatant} (n : ℕ) (h : FighterInv f) :
    FighterInv (addWave f n) := by
  obtain ⟨h1, h2, h3, h4, h5⟩ := h
  exact ⟨h1, h2, h3, h4, clampNat_le (Nat.zero_le _)⟩

theorem respawnFighter_inv (env : RespawnEnv) {f : Combatant} (isP : Bool) (now : ℚ)
    (h : FighterInv f) : FighterInv (respawnFighter env f isP now) := by
  obtain ⟨h1, h2, h3, h4, h5⟩ := h
  obtain ⟨p1, p2, -, -, -, -, -, -, -, p10, p11, p12⟩ := respawnFighter_proj env f isP now
  have hm : (0 : ℚ) ≤ ((computeStats f.edges).maxHp : ℚ) := by
    have hle := computeStats_maxHp_ge f.edges
    have : (0 : ℤ) ≤ (computeStats f.edges).maxHp := le_trans (by norm_num) hle
    exact_mod_cast this
  exact ⟨by rw [p1]; exact hm, by rw [p1, p2], by rw [p10]; exact h3,
    by rw [p11]; exact h4, by rw [p12]; exact h5⟩

theorem pickupPart_inv {f : Combatant} (part : Part) (h : FighterInv f) :
    FighterInv (pickupPart f part) := by
  obtain ⟨h1, h2, h3, h4, h5⟩ := h
  obtain ⟨kind, value⟩ := part
  cases kind with
  | score => exact ⟨h1, h2, h3, h4, h5⟩
  | regen => exact ⟨h1, h2, h3, h4, h5⟩
  | wave =>
    simp only [pickupPart]
    by_cases hw : (f.waveParts + 1) % WAVE_PARTS_PER_LEVEL = 0
    · rw [if_pos hw]
      exact addWave_inv 1 ⟨h1, h2, h3, h4, h5⟩
    · rw [if_neg hw]
      exact ⟨h1, h2, h3, h4, h5⟩
  | edge =>
    have hcapn : (3 : ℕ) ≤ PLAYER_EDGE_CAP := by norm_num [PLAYER_EDGE_CAP]
    simp only [pickupPart]
    by_cases hcap : f.edges < PLAYER_EDGE_CAP
    · rw [if_pos hcap]
      by_cases hmod : (f.parts + 1) % PARTS_PER_EDGE = 0
      · rw [if_pos hmod]
        by_cases hch : clampNat (f.edges + 1) 3 PLAYER_EDGE_CAP ≠ f.edges
        · rw [if_pos hch]
          have hinv2 : FighterInv { f with
              parts := f.parts + 1, score := f.score + SCORE_PER_EDGE_PART,
              edges := clampNat (f.edges + 1) 3 PLAYER_EDGE_CAP } :=
            ⟨h1, h2, clampNat_le hcapn, h4, h5⟩
          exact hp_clamp_inv (recomputeFighterStats_inv hinv2) _
        · rw [if_neg hch]
          exact ⟨h1, h2, clampNat_le hcapn, h4, h5⟩
      · rw [if_neg hmod]
        exact ⟨h1, h2, h3, h4, h5⟩
    · rw [if_neg hcap]
      by_cases hp3 : (f.plasmaParts + 1) % PARTS_PER_PLASMA = 0
      · rw [if_pos hp3]
        exact addPlasma_inv 1 ⟨h1, h2, h3, h4, h5⟩
      · rw [if_neg hp3]
        exact ⟨h1, h2, h3, h4, h5⟩

theorem FighterInv_makeFighter (x y : ℚ) : FighterInv (makeFighter x y) := by
  obtain ⟨-, -, h3, h4, -, -, -, h8, h9, h10⟩ := makeFighter_proj x y
  refine ⟨by rw [h4]; norm_num, by rw [h4, h3], by rw [h9]; norm_num [PLAYER_EDGE_CAP],
    by rw [h8]; exact Nat.zero_le _, by rw [h10]; exact Nat.zero_le _⟩

/-- Claim C4: every mutating fighter operation — part pickup, damage,
regeneration, plasma or wave level gain, stat recomputation, respawn —
preserves 0 ≤ health ≤ max_health, edges ≤ 26, plasma ≤ 10, wave ≤ 8. -/
theorem fighter_bounds_invariant (op : FighterOp) (f : Combatant) (h : FighterInv f) :
    FighterInv (applyFighterOp op f) := by
  cases op with
  | pickup part => exact pickupPart_inv part h
  | damaged a dSt j m =>
    obtain ⟨h1, h2, h3, h4, h5⟩ := h
    have hd : (0 : ℚ) ≤ ((damageAmount a dSt j m : ℤ) : ℚ) := by
      have h2d : (2 : ℤ) ≤ damageAmount a dSt j m := le_max_left _ _
      have : (0 : ℤ) ≤ damageAmount a dSt j m := le_trans (by norm_num) h2d
      exact_mod_cast this
    show FighterInv { f with hp := max 0 (f.hp - ((damageAmount a dSt j m : ℤ) : ℚ)) }
    exact ⟨le_max_left _ _, max_le (le_trans h1 h2) (by linarith), h3, h4, h5⟩
  | regen dt => exact hp_clamp_inv h _
  | plasmaGain n => exact addPlasma_inv n h
  | waveGain n => exact addWave_inv n h
  | recompute => exact recomputeFighterStats_inv h
  | respawn env isP now => exact respawnFighter_inv env isP now h

/-- Witness for C4: a fresh fighter picking up an edge part keeps all
four bounds. -/
theorem fighter_bounds_invariant_witness :
    FighterInv (applyFighterOp (.pickup ⟨.edge, 0⟩) fighterA) :=
  fighter_bounds_invariant (.pickup ⟨.edge, 0⟩) fighterA (FighterInv_makeFighter 100 100)

/-- Claim C7: after movement, a frame that tried to move (speed above the
0.2 threshold) but displaced less than the 2-px epsilon increments the
stuck counter; any other frame decrements it toward zero (ℕ subtraction
= Math.max(0, n−1)) instead of resetting it; and the frame on which the
counter reaches BOT_STUCK_FRAMES enters Escape with the freshly drawn
unit direction and a deadline now + 550 + jitter, strictly in the future. -/
theorem bot_stuck_detection (b : Combatant) (preX preY now : ℚ) (rnd : BotStuckRnd) :
    ((0.04 < b.vx * b.vx + b.vy * b.vy ∧
        dist2 b.x b.y preX preY < BOT_STUCK_DIST_EPS ^ 2) →
      (b.stuckFrames + 1 < BOT_STUCK_FRAMES →
        updateBotStuck b preX preY now rnd = { b with stuckFrames := b.stuckFrames + 1 }) ∧
      (BOT_STUCK_FRAMES ≤ b.stuckFrames + 1 →
        updateBotStuck b preX preY now rnd =
          { b with stuckFrames := 0, escapeX := rnd.ux, escapeY := rnd.uy,
                   escapeUntil := now + BOT_ESCAPE_MS + rnd.jit } ∧
        (0 < rnd.jit → now < (updateBotStuck b preX preY now rnd).escapeUntil) ∧
        (rnd.ux ^ 2 + rnd.uy ^ 2 = 1 →
          (updateBotStuck b preX preY now rnd).escapeX ^ 2 +
            (updateBotStuck b preX preY now rnd).escapeY ^ 2 = 1))) ∧
    (¬(0.04 < b.vx * b.vx + b.vy * b.vy ∧
        dist2 b.x b.y preX preY < BOT_STUCK_DIST_EPS ^ 2) →
      b.stuckFrames < BOT_STUCK_FRAMES →
      updateBotStuck b preX preY now rnd = { b with stuckFrames := b.stuckFrames - 1 }) := by
  have hBE : (0 : ℚ) ≤ BOT_ESCAPE_MS := by norm_num [BOT_ESCAPE_MS]
  constructor
  · intro hT
    constructor
    · intro hlt
      unfold updateBotStuck
      simp only [if_pos hT]
      rw [if_neg (not_le.mpr hlt)]
    · intro hge
      unfold updateBotStuck
      simp only [if_pos hT]
      rw [if_pos hge]
      refine ⟨rfl, ?_, ?_⟩
      · intro hj
        show now < now + BOT_ESCAPE_MS + rnd.jit
        linarith
      · intro hu
        exact hu
  · intro hT hlt
    unfold updateBotStuck
    simp only [if_neg hT]
    rw [if_neg (not_le.mpr (Nat.lt_of_le_of_lt (Nat.sub_le _ _) hlt))]

/-- Witness for C7: a bot 9 frames stuck, trying to move but not
displacing, triggers Escape with deadline 1750 > 1000. -/
theorem bot_stuck_detection_witness :
    updateBotStuck botStuck9 300 300 1000 stuckRnd =
      { botStuck9 with
          stuckFrames := 0, escapeX := 1, escapeY := 0,
          escapeUntil := 1000 + BOT_ESCAPE_MS + 200 } ∧
    1000 < (updateBotStuck botStuck9 300 300 1000 stuckRnd).escapeUntil := by
  have hvx : botStuck9.vx = 1 := by simp [botStuck9]
  have hvy : botStuck9.vy = 0 := by simp [botStuck9]
  have hx : botStuck9.x = 300 := by simp [botStuck9, makeFighter]
  have hy : botStuck9.y = 300 := by simp [botStuck9, makeFighter]
  have hsf : botStuck9.stuckFrames = 9 := by simp [botStuck9]
  have hT : 0.04 < botStuck9.vx * botStuck9.vx + botStuck9.vy * botStuck9.vy ∧
      dist2 botStuck9.x botStuck9.y 300 300 < BOT_STUCK_DIST_EPS ^ 2 := by
    rw [hvx, hvy, hx, hy]
    constructor
    · norm_num
    · norm_num [dist2, BOT_STUCK_DIST_EPS]
  have hge : BOT_STUCK_FRAMES ≤ botStuck9.stuckFrames + 1 := by
    rw [hsf]
    norm_num [BOT_STUCK_FRAMES]
  have h := ((bot_stuck_detection botStuck9 300 300 1000 stuckRnd).1 hT).2 hge
  refine ⟨?_, ?_⟩
  · rw [h.1]
    norm_num [stuckRnd]
  · exact h.2.1 (by norm_num [stuckRnd])

theorem clamp_shift (v a b q : ℚ) (hab : a ≤ b) (hq : 0 ≤ q) :
    clamp (v + (v - clamp v a b) * q) a b = clamp v a b := by
  unfold clamp
  rcases le_or_lt v a with h1 | h1
  · rw [min_eq_right (le_trans h1 hab), max_eq_left h1]
    have hv2 : v + (v - a) * q ≤ a := by nlinarith
    rw [min_eq_right (le_trans hv2 hab), max_eq_left hv2]
  · rcases le_or_lt v b with h2 | h2
    · rw [min_eq_right h2, max_eq_right h1.le]
      have harg : v + (v - v) * q = v := by ring
      rw [harg, min_eq_right h2, max_eq_right h1.le]
    · rw [min_eq_left h2.le, max_eq_right hab]
      have hv2 : b ≤ v + (v - b) * q := by nlinarith
      rw [min_eq_left hv2, max_eq_right hab]

theorem pushout_core (px py : ℚ) (rect : Obstacle) (d r cx cy : ℚ)
    (hw : 0 ≤ rect.w) (hh : 0 ≤ rect.h) (hr : 2 ≤ r)
    (hcx : cx = clamp px rect.x (rect.x + rect.w))
    (hcy : cy = clamp py rect.y (rect.y + rect.h))
    (h2pos : 0 < (px - cx) * (px - cx) + (py - cy) * (py - cy))
    (hlt : (px - cx) * (px - cx) + (py - cy) * (py - cy) < r * r)
    (hd : 0 < d) (hdd : d * d = (px - cx) * (px - cx) + (py - cy) * (py - cy)) :
    distSqToRectEdge (px + (px - cx) / d * (r - d)) (py + (py - cy) / d * (r - d)) rect
      = r * r := by
  have hd0 : d ≠ 0 := ne_of_gt hd
  have hdlt : d < r := by nlinarith
  have hq : 0 ≤ (r - d) / d := div_nonneg (by linarith) hd.le
  have hxb : rect.x ≤ rect.x + rect.w := by linarith
  have hyb : rect.y ≤ rect.y + rect.h := by linarith
  have hargx : px + (px - cx) / d * (r - d)
      = px + (px - clamp px rect.x (rect.x + rect.w)) * ((r - d) / d) := by
    rw [← hcx]; ring
  have hargy : py + (py - cy) / d * (r - d)
      = py + (py - clamp py rect.y (rect.y + rect.h)) * ((r - d) / d) := by
    rw [← hcy]; ring
  have hcx2 : clamp (px + (px - cx) / d * (r - d)) rect.x (rect.x + rect.w) = cx := by
    rw [hargx, clamp_shift px rect.x (rect.x + rect.w) ((r - d) / d) hxb hq, hcx]
  have hcy2 : clamp (py + (py - cy) / d * (r - d)) rect.y (rect.y + rect.h) = cy := by
    rw [hargy, clamp_shift py rect.y (rect.y + rect.h) ((r - d) / d) hyb hq, hcy]
  have hx1 : px + (px - cx) / d * (r - d) - cx = (px - cx) * r / d := by
    field_simp
    ring
  have hy1 : py + (py - cy) / d * (r - d) - cy = (py - cy) * r / d := by
    field_simp
    ring
  have hsum : (px + (px - cx) / d * (r - d) - cx) ^ 2 +
      (py + (py - cy) / d * (r - d) - cy) ^ 2 = r * r := by
    rw [hx1, hy1]
    have hexp : ((px - cx) * r / d) ^ 2 + ((py - cy) * r / d) ^ 2
        = ((px - cx) * (px - cx) + (py - cy) * (py - cy)) * (r * r) / (d * d) := by
      field_simp
      ring
    rw [hexp, hdd]
    have hne : (px - cx) * (px - cx) + (py - cy) * (py - cy) ≠ 0 := ne_of_gt h2pos
    field_simp
  have hnin : ¬ insideRect (px + (px - cx) / d * (r - d))
      (py + (py - cy) / d * (r - d)) rect := by
    intro hin
    obtain ⟨a1, a2, a3, a4⟩ := hin
    have e1 : clamp (px + (px - cx) / d * (r - d)) rect.x (rect.x + rect.w)
        = px + (px - cx) / d * (r - d) := by
      unfold clamp; rw [min_eq_right a2, max_eq_right a1]
    have e2 : clamp (py + (py - cy) / d * (r - d)) rect.y (rect.y + rect.h)
        = py + (py - cy) / d * (r - d) := by
      unfold clamp; rw [min_eq_right a4, max_eq_right a3]
    have ex : px + (px - cx) / d * (r - d) = cx := by rw [← e1, hcx2]
    have ey : py + (py - cy) / d * (r - d) = cy := by rw [← e2, hcy2]
    rw [ex, ey] at hsum
    simp only [sub_self] at hsum
    nlinarith
  unfold distSqToRectEdge
  rw [if_neg hnin, hcx2, hcy2]
  exact hsum

/-- Claim C3 (counterexample): an entity of radius 18 whose center lies
inside the obstacle, 1 unit from its left edge, is left exactly in place
by resolveCircleRect — with d = 1/1000 = sqrt(max(1e-6, 0)), the value
the source computes there — so its distance from the nearest edge point
stays 1 < 18: an entity inside an obstacle is NOT pushed out. -/
theorem inside_obstacle_not_pushed_cex :
    entInside.r = 18 ∧
    (resolveCircleRect entInside obstacleTest (1 / 1000)).x = entInside.x ∧
    (resolveCircleRect entInside obstacleTest (1 / 1000)).y = entInside.y ∧
    distSqToRectEdge entInside.x entInside.y obstacleTest < entInside.r ^ 2 := by
  have hx : entInside.x = 1 := by simp [entInside, makeFighter]
  have hy : entInside.y = 50 := by simp [entInside, makeFighter]
  have hr : entInside.r = 18 := by simp [entInside, makeFighter, PLAYER_RADIUS]
  refine ⟨hr, ?_, ?_, ?_⟩
  · simp only [resolveCircleRect, hx, hy, hr, obstacleTest]
    norm_num [clamp]
  · simp only [resolveCircleRect, hx, hy, hr, obstacleTest]
    norm_num [clamp]
  · rw [hx, hy, hr]
    norm_num [distSqToRectEdge, insideRect, obstacleTest, clamp]

/-- Claim C3 (amended): one resolveCircleRect call on an entity whose
center is strictly outside the rectangle, whose (r+2)-circle overlaps it
and whose nearest-point squared distance is at least the 1e-6 guard,
lands the center at squared distance exactly (r+2)² ≥ r² from the
rectangle's nearest edge point; an entity whose center lies in the closed
rectangle is left unmoved (so one placed fully inside is not pushed out). -/
theorem resolveCircleRect_pushout (ent : Combatant) (rect : Obstacle) (d : ℚ)
    (hw : 0 ≤ rect.w) (hh : 0 ≤ rect.h) (hr : 0 ≤ ent.r) :
    (insideRect ent.x ent.y rect → resolveCircleRect ent rect d = ent) ∧
    (1 / 1000000 ≤
        (ent.x - clamp ent.x rect.x (rect.x + rect.w)) *
          (ent.x - clamp ent.x rect.x (rect.x + rect.w)) +
        (ent.y - clamp ent.y rect.y (rect.y + rect.h)) *
          (ent.y - clamp ent.y rect.y (rect.y + rect.h)) →
      (ent.x - clamp ent.x rect.x (rect.x + rect.w)) *
          (ent.x - clamp ent.x rect.x (rect.x + rect.w)) +
        (ent.y - clamp ent.y rect.y (rect.y + rect.h)) *
          (ent.y - clamp ent.y rect.y (rect.y + rect.h)) < (ent.r + 2) * (ent.r + 2) →
      0 < d →
      d * d =
        (ent.x - clamp ent.x rect.x (rect.x + rect.w)) *
          (ent.x - clamp ent.x rect.x (rect.x + rect.w)) +
        (ent.y - clamp ent.y rect.y (rect.y + rect.h)) *
          (ent.y - clamp ent.y rect.y (rect.y + rect.h)) →
      distSqToRectEdge (resolveCircleRect ent rect d).x (resolveCircleRect ent rect d).y
          rect = (ent.r + 2) * (ent.r + 2) ∧
      ent.r ^ 2 ≤ distSqToRectEdge (resolveCircleRect ent rect d).x
          (resolveCircleRect ent rect d).y rect) := by
  constructor
  · intro hin
    obtain ⟨hx1, hx2, hy1, hy2⟩ := hin
    have hcx : clamp ent.x rect.x (rect.x + rect.w) = ent.x := by
      unfold clamp; rw [min_eq_right hx2, max_eq_right hx1]
    have hcy : clamp ent.y rect.y (rect.y + rect.h) = ent.y := by
      unfold clamp; rw [min_eq_right hy2, max_eq_right hy1]
    simp only [resolveCircleRect, hcx, hcy, sub_self, mul_zero, add_zero, zero_div,
      zero_mul]
    rw [if_neg (show ¬((ent.r + 2) * (ent.r + 2) ≤ 0) by nlinarith)]
  · intro h1e6 hlt hd hdd
    have hpos : 0 < (ent.x - clamp ent.x rect.x (rect.x + rect.w)) *
          (ent.x - clamp ent.x rect.x (rect.x + rect.w)) +
        (ent.y - clamp ent.y rect.y (rect.y + rect.h)) *
          (ent.y - clamp ent.y rect.y (rect.y + rect.h)) :=
      lt_of_lt_of_le (by norm_num) h1e6
    have hres : resolveCircleRect ent rect d =
        { ent with
            x := ent.x + (ent.x - clamp ent.x rect.x (rect.x + rect.w)) / d *
              (ent.r + 2 - d)
            y := ent.y + (ent.y - clamp ent.y rect.y (rect.y + rect.h)) / d *
              (ent.r + 2 - d) } := by
      simp only [resolveCircleRect]
      rw [if_neg (not_le.mpr hlt)]
    rw [hres]
    have hcore := pushout_core ent.x ent.y rect d (ent.r + 2)
      (clamp ent.x rect.x (rect.x + rect.w)) (clamp ent.y rect.y (rect.y + rect.h))
      hw hh (by linarith) rfl rfl hpos hlt hd hdd
    constructor
    · exact hcore
    · rw [hcore]
      nlinarith

/-- Witness for the amended C3: the entity at (115, 50), radius 18,
overlapping the 100×100 obstacle from the right (nearest-point distance
15, so d = 15), ends exactly 20 = 18 + 2 away from the edge. -/
theorem resolveCircleRect_pushout_witness :
    distSqToRectEdge (resolveCircleRect entOutside obstacleTest 15).x
      (resolveCircleRect entOutside obstacleTest 15).y obstacleTest = 400 ∧
    entOutside.r ^ 2 ≤ 400 := by
  have hx : entOutside.x = 115 := by simp [entOutside, makeFighter]
  have hy : entOutside.y = 50 := by simp [entOutside, makeFighter]
  have hr : entOutside.r = 18 := by simp [entOutside, makeFighter, PLAYER_RADIUS]
  have h := (resolveCircleRect_pushout entOutside obstacleTest 15
    (by norm_num [obstacleTest]) (by norm_num [obstacleTest]) (by rw [hr]; norm_num)).2
    (by rw [hx, hy]; norm_num [obstacleTest, clamp])
    (by rw [hx, hy, hr]; norm_num [obstacleTest, clamp])
    (by norm_num)
    (by rw [hx, hy]; norm_num [obstacleTest, clamp])
  constructor
  · rw [h.1, hr]
    norm_num
  · rw [hr]
    norm_num

theorem hitLoop_spec (pr : Projectile) (owner : Combatant) (now j : ℚ)
    (ts : List TargetEntry) :
    ((hitLoop pr owner now j ts).2 = none →
      (hitLoop pr owner now j ts).1 = ts ∧ ∀ t ∈ ts, projSkips pr t) ∧
    ((hitLoop pr owner now j ts).2 ≠ none →
      ∃ pre t post,
        ts = pre ++ t :: post ∧
        (∀ u ∈ pre, projSkips pr u) ∧
        ¬ projSkips pr t ∧
        (hitLoop pr owner now j ts).1 =
          pre ++ { t with c := waveHitDefender pr owner t now j } :: post) := by
  induction ts with
  | nil =>
    constructor
    · intro _
      exact ⟨rfl, by simp⟩
    · intro h
      simp [hitLoop] at h
  | cons t rest ih =>
    by_cases hskip : t.c.hp ≤ 0 ∨ t.isOwner = true
    · have heq : hitLoop pr owner now j (t :: rest) =
          (t :: (hitLoop pr owner now j rest).1, (hitLoop pr owner now j rest).2) := by
        rw [hitLoop, if_pos hskip]
      rw [heq]
      have hts : projSkips pr t := by
        unfold projSkips
        rcases hskip with h1 | h1
        · exact Or.inl h1
        · exact Or.inr (Or.inl h1)
      constructor
      · intro h
        obtain ⟨e1, e2⟩ := ih.1 h
        refine ⟨by rw [e1], ?_⟩
        intro u hu
        rcases List.mem_cons.mp hu with rfl | hu2
        · exact hts
        · exact e2 u hu2
      · intro h
        obtain ⟨pre, t2, post, hsplit, hpre, hnot, hres⟩ := ih.2 h
        refine ⟨t :: pre, t2, post, by rw [List.cons_append, hsplit], ?_, hnot,
          by rw [List.cons_append, hres]⟩
        intro u hu
        rcases List.mem_cons.mp hu with rfl | hu2
        · exact hts
        · exact hpre u hu2
    · by_cases hhit : rectHitProjectile pr t.c = true
      · constructor
        · intro h
          rw [hitLoop, if_neg hskip, if_pos hhit] at h
          simp at h
        · intro _
          refine ⟨[], t, rest, rfl, by simp, ?_, ?_⟩
          · intro hsk
            rcases hsk with h1 | h1 | h1
            · exact hskip (Or.inl h1)
            · exact hskip (Or.inr h1)
            · rw [hhit] at h1
              exact Bool.noConfusion h1
          · rw [hitLoop, if_neg hskip, if_pos hhit]
            simp only [List.nil_append]
            rfl
      · have hmiss : rectHitProjectile pr t.c = false := by
          have h2 := hhit
          rw [Bool.not_eq_true] at h2
          exact h2
        have heq : hitLoop pr owner now j (t :: rest) =
            (t :: (hitLoop pr owner now j rest).1, (hitLoop pr owner now j rest).2) := by
          rw [hitLoop, if_neg hskip, if_neg hhit]
        rw [heq]
        have hts : projSkips pr t := Or.inr (Or.inr hmiss)
        constructor
        · intro h
          obtain ⟨e1, e2⟩ := ih.1 h
          refine ⟨by rw [e1], ?_⟩
          intro u hu
          rcases List.mem_cons.mp hu with rfl | hu2
          · exact hts
          · exact e2 u hu2
        · intro h
          obtain ⟨pre, t2, post, hsplit, hpre, hnot, hres⟩ := ih.2 h
          refine ⟨t :: pre, t2, post, by rw [List.cons_append, hsplit], ?_, hnot,
            by rw [List.cons_append, hres]⟩
          intro u hu
          rcases List.mem_cons.mp hu with rfl | hu2
          · exact hts
          · exact hpre u hu2

/-- Claim C5: in one projectile-update iteration, a live wave projectile
damages at most one target — the first candidate in list order that is
alive, not its owner, and passes the capsule test; every other entry of
the target list is returned untouched.  It is removed exactly when it
registered a hit or its age reached its lifetime, and when it expires
without a hit no target (hence no entity's health) changes at all. -/
theorem projectile_single_hit_lifecycle (pr : Projectile) (owner : Combatant)
    (ts : List TargetEntry) (dt now j : ℚ) :
    ((projectileTick pr owner ts dt now j).2.2.1 = none →
      (projectileTick pr owner ts dt now j).2.1 = ts ∧
      (∀ t ∈ ts, projSkips (advanceProj pr dt) t) ∧
      (projectileTick pr owner ts dt now j).2.2.2 = decide (pr.life ≤ pr.age + dt)) ∧
    ((projectileTick pr owner ts dt now j).2.2.1 ≠ none →
      (projectileTick pr owner ts dt now j).2.2.2 = true ∧
      ∃ pre t post,
        ts = pre ++ t :: post ∧
        (∀ u ∈ pre, projSkips (advanceProj pr dt) u) ∧
        ¬ projSkips (advanceProj pr dt) t ∧
        (projectileTick pr owner ts dt now j).2.1 =
          pre ++ { t with c := waveHitDefender (advanceProj pr dt) owner t now j }
            :: post) ∧
    ((projectileTick pr owner ts dt now j).2.2.2
      = (decide (pr.life ≤ pr.age + dt) ||
          ((projectileTick pr owner ts dt now j).2.2.1).isSome)) := by
  have heq : projectileTick pr owner ts dt now j =
      (advanceProj pr dt, (hitLoop (advanceProj pr dt) owner now j ts).1,
       (hitLoop (advanceProj pr dt) owner now j ts).2,
       decide (pr.life ≤ pr.age + dt) ||
         (hitLoop (advanceProj pr dt) owner now j ts).2.isSome) := rfl
  rw [heq]
  dsimp only
  have hs := hitLoop_spec (advanceProj pr dt) owner now j ts
  refine ⟨?_, ?_, rfl⟩
  · intro h
    obtain ⟨e1, e2⟩ := hs.1 h
    refine ⟨e1, e2, ?_⟩
    rw [h]
    simp
  · intro h
    refine ⟨?_, hs.2 h⟩
    rw [Option.ne_none_iff_isSome] at h
    rw [h]
    simp

/-- Witness for C5: the test projectile against a far target (miss) then
an on-path target (hit) registers the hit and is removed. -/
theorem projectile_single_hit_witness :
    (projectileTick projTest fighterA [targetFar, targetHit] 0 1000 0).2.2.2 = true := by
  have hne : (projectileTick projTest fighterA [targetFar, targetHit] 0 1000 0).2.2.1
      ≠ none := by
    simp only [projectileTick, advanceProj, hitLoop, targetFar, targetHit, fighterA,
      projTest, rectHitProjectile, dist2, makeFighter, computeStats_four]
    norm_num [PLAYER_RADIUS]
    exact Option.some_ne_none _
  exact ((projectile_single_hit_lifecycle projTest fighterA [targetFar, targetHit]
    0 1000 0).2.1 hne).1

end Blade
